import Mathlib

/-!
Verification of the check-aggregation model of
`scripts/verify_firebase_deployment.py`.

The script is a pre-deployment readiness checker: a fixed sequence of
check groups probes the filesystem (existence and substring content of a
known set of paths) and reports each outcome to an aggregator holding an
error list, a warning list, a success counter and a total counter.  After
all groups run, a report is rendered and the process exits 0 iff the
error list is empty.

The embedding below mirrors the Python source function by function:

* `St` is the mutable state of `FirebaseDeploymentVerifier`
  (`issues`, `warnings`, `success_count`, `total_checks`);
* `FS` models the filesystem as a map from relative path to `FileState`;
  `FileState.file none` is a file that exists but whose text content
  cannot be read (`read_text()` raises);
* each `check_*` function is a direct translation of the corresponding
  Python method; fallible code (an uncaught Python exception) is modelled
  with `Except Unit`;
* `BuildResult` models the outcome of the `subprocess.run` build attempt;
* `generate_report` returns the list of strings printed by the report,
  one element per `print` call;
* `run_all_checks` and `main` chain the groups exactly as the source does
  and additionally expose the final aggregator state and report lines.
-/

namespace Verify

/-- Aggregator state of `FirebaseDeploymentVerifier`: the `issues` and
`warnings` message lists, the `success_count` and the `total_checks`
counter, as initialised in `__init__`. -/
structure St where
  issues : List String
  warnings : List String
  success_count : Nat
  total_checks : Nat
deriving DecidableEq, Repr

/-- State after `__init__`: empty lists, zero counters. -/
def initSt : St := ⟨[], [], 0, 0⟩

/-- `log_success`: prints the message and increments `success_count` and
`total_checks` (the message itself is not stored). -/
def log_success (st : St) (_message : String) : St :=
  { st with success_count := st.success_count + 1,
            total_checks := st.total_checks + 1 }

/-- `log_warning`: appends the message to `warnings` and increments
`total_checks`. -/
def log_warning (st : St) (message : String) : St :=
  { st with warnings := st.warnings ++ [message],
            total_checks := st.total_checks + 1 }

/-- `log_error`: appends the message to `issues` and increments
`total_checks`. -/
def log_error (st : St) (message : String) : St :=
  { st with issues := st.issues ++ [message],
            total_checks := st.total_checks + 1 }

/-- State of one path in the project tree: absent, or an existing file
whose text content is `some c`, or an existing file whose content cannot
be decoded/read (`file none`, where `Path.read_text()` raises). -/
inductive FileState where
  | absent : FileState
  | file : Option String → FileState
deriving DecidableEq

/-- The filesystem under the project root: relative path to `FileState`. -/
def FS : Type := String → FileState

/-- `Path.exists()`: true for any existing file, readable or not. -/
def FileState.existsb : FileState → Bool
  | .absent => false
  | .file _ => true

/-- `Path.read_text()`: returns the content, raising (modelled as
`Except.error ()`) when the file is absent or its content unreadable. -/
def readText : FileState → Except Unit String
  | .file (some c) => .ok c
  | _ => .error ()

/-- Auxiliary for substring search: list-of-characters prefix test. -/
def isPrefL : List Char → List Char → Bool
  | [], _ => true
  | _ :: _, [] => false
  | a :: as, b :: bs => a == b && isPrefL as bs

/-- Auxiliary for substring search on character lists. -/
def containsSubL (needle : List Char) : List Char → Bool
  | [] => isPrefL needle []
  | b :: bs => isPrefL needle (b :: bs) || containsSubL needle bs

/-- Python's `needle in hay` on strings (also the semantics of
`re.search` for the literal patterns the script uses): substring test. -/
def containsSub (needle hay : String) : Bool :=
  containsSubL needle.data hay.data

/-- Python's `str.lower()` (ASCII-faithful model). -/
def strLower (s : String) : String := ⟨s.data.map Char.toLower⟩

/-- Python's `str.capitalize()`: first character upper-cased, remaining
characters lower-cased (ASCII-faithful model). -/
def strCapitalize (s : String) : String :=
  match s.data with
  | [] => ⟨[]⟩
  | c :: cs => ⟨c.toUpper :: cs.map Char.toLower⟩

/-- `check_file_exists(file_path, description)`: logs a success and
returns `true` when the path exists, otherwise logs a `FILE MISSING`
error and returns `false`. -/
def check_file_exists (fs : FS) (file_path description : String) (st : St) :
    Bool × St :=
  if (fs file_path).existsb then
    (true, log_success st (description ++ ": " ++ file_path))
  else
    (false, log_error st (description ++ ": " ++ file_path ++ " - FILE MISSING"))

/-- The `placeholder_patterns` list of `check_firebase_options`: each
entry pairs the regex source text (used in the logged message) with the
literal string it matches (all six regexes are literals up to escaped
dots). -/
def placeholder_patterns : List (String × String) :=
  [("placeholder-project-id", "placeholder-project-id"),
   ("your-project-id", "your-project-id"),
   ("your-app-id", "your-app-id"),
   ("your-api-key", "your-api-key"),
   ("example\\.com", "example.com"),
   ("com\\.example\\.", "com.example.")]

/-- The `platforms` list of `check_firebase_options`. -/
def platforms : List String := ["android", "ios", "web", "macos", "windows"]

/-- `check_firebase_options`: absent file logs one error and returns;
otherwise the content is read (raising on unreadable content), each
matching placeholder pattern logs an error, the real project id logs a
success or an error, and each platform stanza logs a success or a
warning. -/
def check_firebase_options (fs : FS) (st : St) : Except Unit St :=
  if !(fs "lib/firebase_options.dart").existsb then
    .ok (log_error st "Firebase options file not found")
  else do
    let content ← readText (fs "lib/firebase_options.dart")
    let st := placeholder_patterns.foldl
      (fun s p =>
        if containsSub p.2 content then
          log_error s ("Found placeholder pattern: " ++ p.1)
        else s) st
    let st :=
      if containsSub "lca5kr3efmasxydmsi1rvyjoizifj4" content then
        log_success st "Real Firebase project ID found"
      else
        log_error st "Real Firebase project ID not found"
    let st := platforms.foldl
      (fun s platform =>
        if containsSub ("static const FirebaseOptions " ++ platform) content then
          log_success s (strCapitalize platform ++ " configuration present")
        else
          log_warning s (strCapitalize platform ++ " configuration missing")) st
    return st

/-- `check_android_config`: existence check for `google-services.json`;
then, only when `build.gradle` exists, two content checks on it
(Google Services plugin: error when missing; Firebase BoM: warning when
missing). -/
def check_android_config (fs : FS) (st : St) : Except Unit St := do
  let (_, st) := check_file_exists fs "android/app/google-services.json"
    "Google Services JSON" st
  if (fs "android/app/build.gradle").existsb then do
    let content ← readText (fs "android/app/build.gradle")
    let st :=
      if containsSub "com.google.gms.google-services" content then
        log_success st "Google Services plugin integrated"
      else
        log_error st "Google Services plugin not integrated"
    let st :=
      if containsSub "firebase-bom" content then
        log_success st "Firebase BoM dependency present"
      else
        log_warning st "Firebase BoM dependency missing"
    return st
  else
    return st

/-- `check_ios_config`: existence check for `GoogleService-Info.plist`;
then, only when `Info.plist` exists, one content check for URL schemes
(warning when missing). -/
def check_ios_config (fs : FS) (st : St) : Except Unit St := do
  let (_, st) := check_file_exists fs "ios/Runner/GoogleService-Info.plist"
    "GoogleService-Info.plist" st
  if (fs "ios/Runner/Info.plist").existsb then do
    let content ← readText (fs "ios/Runner/Info.plist")
    let st :=
      if containsSub "CFBundleURLTypes" content then
        log_success st "URL schemes configured"
      else
        log_warning st "URL schemes not configured"
    return st
  else
    return st

/-- `check_web_config`: when `web/index.html` exists its content is
scanned (lower-cased) for `firebase` (success/warning); when it is absent
a warning is logged. -/
def check_web_config (fs : FS) (st : St) : Except Unit St :=
  if (fs "web/index.html").existsb then do
    let content ← readText (fs "web/index.html")
    let st :=
      if containsSub "firebase" (strLower content) then
        log_success st "Firebase scripts in index.html"
      else
        log_warning st "Firebase scripts not found in index.html"
    return st
  else
    .ok (log_warning st "Web index.html not found")

/-- The `firebase_packages` list of `check_dependencies`. -/
def firebase_packages : List String :=
  ["firebase_core", "firebase_auth", "cloud_firestore", "firebase_storage",
   "firebase_messaging", "firebase_analytics", "firebase_remote_config"]

/-- `check_dependencies`: absent `pubspec.yaml` logs one error and
returns; otherwise each package name is checked as a substring
(success when present, warning when missing). -/
def check_dependencies (fs : FS) (st : St) : Except Unit St :=
  if !(fs "pubspec.yaml").existsb then
    .ok (log_error st "pubspec.yaml not found")
  else do
    let content ← readText (fs "pubspec.yaml")
    let st := firebase_packages.foldl
      (fun s package =>
        if containsSub package content then
          log_success s (package ++ " dependency present")
        else
          log_warning s (package ++ " dependency missing")) st
    return st

/-- Outcome of the `subprocess.run(['flutter', 'build', ...])` call in
`check_build_status`: normal completion with a return code and captured
stderr, a `TimeoutExpired`, a `FileNotFoundError` (flutter not on PATH),
or any other exception with its message. -/
inductive BuildResult where
  | completed : Int → String → BuildResult
  | timedOut : BuildResult
  | flutterNotFound : BuildResult
  | otherError : String → BuildResult
deriving DecidableEq

/-- `check_build_status`: every outcome of the build attempt is caught
inside the method and logged — success on return code 0, error on a
non-zero code, warning on timeout, error when the tool is not found,
error on any other exception. -/
def check_build_status (b : BuildResult) (st : St) : St :=
  match b with
  | .completed returncode stderr =>
    if returncode == 0 then
      log_success st "App builds successfully"
    else
      log_error st ("Build failed: " ++ stderr)
  | .timedOut => log_warning st "Build timed out (this is normal for first build)"
  | .flutterNotFound => log_error st "Flutter not found in PATH"
  | .otherError e => log_error st ("Build check failed: " ++ e)

/-- `check_security_rules`: pure existence checks for `firestore.rules`
and `storage.rules`; success when present, warning when absent. -/
def check_security_rules (fs : FS) (st : St) : St :=
  let st :=
    if (fs "firestore.rules").existsb then
      log_success st "Firestore security rules present"
    else
      log_warning st "Firestore security rules not found"
  if (fs "storage.rules").existsb then
    log_success st "Storage security rules present"
  else
    log_warning st "Storage security rules not found"

/-- The `"="*60` separator line of the report. -/
def sepLine : String := ⟨List.replicate 60 '='⟩

/-- The `"   • "`-prefixed line printed for each stored issue/warning. -/
def bulletLine (m : String) : String := "   • " ++ m

/-- `generate_report`: the exact sequence of strings printed by the
report, one list element per `print` call (a leading `\n` in an element
is the blank line the source embeds in the printed string). -/
def generate_report (st : St) : List String :=
  ["\n" ++ sepLine,
   "📊 FIREBASE DEPLOYMENT READINESS REPORT",
   sepLine,
   "\nTotal Checks: " ++ toString st.total_checks,
   "✅ Successful: " ++ toString st.success_count,
   "⚠️  Warnings: " ++ toString st.warnings.length,
   "❌ Issues: " ++ toString st.issues.length]
  ++ (if st.issues.isEmpty then []
      else "\n❌ CRITICAL ISSUES TO FIX:" :: st.issues.map bulletLine)
  ++ (if st.warnings.isEmpty then []
      else "\n⚠️  WARNINGS TO ADDRESS:" :: st.warnings.map bulletLine)
  ++ (if st.issues.isEmpty then
        ["\n🎉 DEPLOYMENT STATUS: READY!",
         "   Your Firebase configuration is ready for production deployment."]
      else
        ["\n🚨 DEPLOYMENT STATUS: NOT READY",
         "   Please fix the critical issues before deploying."])
  ++ ["\n" ++ sepLine]

/-- The READY banner line printed by `generate_report` when `issues` is
empty. -/
def readyBanner : String := "\n🎉 DEPLOYMENT STATUS: READY!"

/-- `run_all_checks`: the seven check groups in source order, then the
report; returns `len(issues) == 0` together with (for observation) the
final aggregator state and the rendered report lines.  An uncaught
exception inside a group (`Except.error`) aborts the remaining groups
and the report, exactly as in Python. -/
def run_all_checks (fs : FS) (b : BuildResult) :
    Except Unit (Bool × St × List String) := do
  let st ← check_firebase_options fs initSt
  let st ← check_android_config fs st
  let st ← check_ios_config fs st
  let st ← check_web_config fs st
  let st ← check_dependencies fs st
  let st := check_security_rules fs st
  let st := check_build_status b st
  let report := generate_report st
  return (st.issues.length == 0, st, report)

/-- `main`: runs all checks and exits with code 0 when they report
success, code 1 otherwise (state and report kept for observation). -/
def main (fs : FS) (b : BuildResult) :
    Except Unit (Nat × St × List String) := do
  let r ← run_all_checks fs b
  if r.1 then
    return (0, r.2.1, r.2.2)
  else
    return (1, r.2.1, r.2.2)

/-- Final aggregator state of a run (`initSt` in the unreached error
case); observation helper. -/
def stOfRun (e : Except Unit (Bool × St × List String)) : St :=
  match e with
  | .ok r => r.2.1
  | .error _ => initSt

/-- Issues list of a run's final state; observation helper. -/
def issuesOf (e : Except Unit (Bool × St × List String)) : List String :=
  (stOfRun e).issues

/-- Warnings list of a run's final state; observation helper. -/
def warningsOf (e : Except Unit (Bool × St × List String)) : List String :=
  (stOfRun e).warnings

/-- A filesystem is readable when every existing file's text content can
be read (no `FileState.file none`). -/
def Readable (fs : FS) : Prop := ∀ p : String, fs p ≠ .file none

/-! ### Delta characterization

Every aggregator mutation is append-only.  A `Delta` records what one
check (or one group) adds to the state; `applyD` applies it.  Each group
function is proved equal to applying a delta computed from the relevant
`FileState`s alone, which makes the per-run counting arguments
compositional. -/

/-- What a sequence of log calls adds to the aggregator state: issue
messages, warning messages and a success count (in order of occurrence). -/
structure Delta where
  dIssues : List String
  dWarnings : List String
  dSucc : Nat
deriving DecidableEq

/-- The empty delta. -/
def demp : Delta := ⟨[], [], 0⟩

/-- Sequential composition of deltas. -/
def dcomp (d e : Delta) : Delta :=
  ⟨d.dIssues ++ e.dIssues, d.dWarnings ++ e.dWarnings, d.dSucc + e.dSucc⟩

/-- Apply a delta to an aggregator state: append the messages, add the
success count, and bump `total_checks` by one per recorded check. -/
def applyD (st : St) (d : Delta) : St :=
  ⟨st.issues ++ d.dIssues, st.warnings ++ d.dWarnings,
   st.success_count + d.dSucc,
   st.total_checks + d.dIssues.length + d.dWarnings.length + d.dSucc⟩

/-- Delta of a list of checks, one delta per element. -/
def dlist {α : Type} (f : α → Delta) : List α → Delta
  | [] => demp
  | a :: l => dcomp (f a) (dlist f l)

/-- Delta of one `check_file_exists` call. -/
def fileCheckD (f : FileState) (file_path description : String) : Delta :=
  if f.existsb then ⟨[], [], 1⟩
  else ⟨[description ++ ": " ++ file_path ++ " - FILE MISSING"], [], 0⟩

/-- Delta of one placeholder-pattern check in `check_firebase_options`. -/
def phD (content : String) (p : String × String) : Delta :=
  if containsSub p.2 content then
    ⟨["Found placeholder pattern: " ++ p.1], [], 0⟩
  else demp

/-- Delta of the real-project-id check in `check_firebase_options`. -/
def realIdD (content : String) : Delta :=
  if containsSub "lca5kr3efmasxydmsi1rvyjoizifj4" content then ⟨[], [], 1⟩
  else ⟨["Real Firebase project ID not found"], [], 0⟩

/-- Delta of one platform-stanza check in `check_firebase_options`. -/
def platD (content : String) (platform : String) : Delta :=
  if containsSub ("static const FirebaseOptions " ++ platform) content then
    ⟨[], [], 1⟩
  else ⟨[], [strCapitalize platform ++ " configuration missing"], 0⟩

/-- Delta of `check_firebase_options`, as a function of the options
file's state (`error` models the uncaught `read_text` exception). -/
def optionsD : FileState → Except Unit Delta
  | .absent => .ok ⟨["Firebase options file not found"], [], 0⟩
  | .file none => .error ()
  | .file (some content) =>
    .ok (dcomp (dcomp (dlist (phD content) placeholder_patterns)
      (realIdD content)) (dlist (platD content) platforms))

/-- Delta of the two `build.gradle` content checks of
`check_android_config`. -/
def androidContentD (content : String) : Delta :=
  dcomp
    (if containsSub "com.google.gms.google-services" content then ⟨[], [], 1⟩
     else ⟨["Google Services plugin not integrated"], [], 0⟩)
    (if containsSub "firebase-bom" content then ⟨[], [], 1⟩
     else ⟨[], ["Firebase BoM dependency missing"], 0⟩)

/-- Delta of `check_android_config`, as a function of the states of
`google-services.json` and `build.gradle`. -/
def androidD (gs gradle : FileState) : Except Unit Delta :=
  let d1 := fileCheckD gs "android/app/google-services.json" "Google Services JSON"
  match gradle with
  | .absent => .ok d1
  | .file none => .error ()
  | .file (some content) => .ok (dcomp d1 (androidContentD content))

/-- Delta of `check_ios_config`, as a function of the states of
`GoogleService-Info.plist` and `Info.plist`. -/
def iosD (plist infoPlist : FileState) : Except Unit Delta :=
  let d1 := fileCheckD plist "ios/Runner/GoogleService-Info.plist"
    "GoogleService-Info.plist"
  match infoPlist with
  | .absent => .ok d1
  | .file none => .error ()
  | .file (some content) =>
    .ok (dcomp d1
      (if containsSub "CFBundleURLTypes" content then ⟨[], [], 1⟩
       else ⟨[], ["URL schemes not configured"], 0⟩))

/-- Delta of `check_web_config`, as a function of the state of
`web/index.html`. -/
def webD : FileState → Except Unit Delta
  | .absent => .ok ⟨[], ["Web index.html not found"], 0⟩
  | .file none => .error ()
  | .file (some content) =>
    .ok (if containsSub "firebase" (strLower content) then ⟨[], [], 1⟩
         else ⟨[], ["Firebase scripts not found in index.html"], 0⟩)

/-- Delta of one package check in `check_dependencies`. -/
def pkgD (content : String) (package : String) : Delta :=
  if containsSub package content then ⟨[], [], 1⟩
  else ⟨[], [package ++ " dependency missing"], 0⟩

/-- Delta of `check_dependencies`, as a function of the state of
`pubspec.yaml`. -/
def depsD : FileState → Except Unit Delta
  | .absent => .ok ⟨["pubspec.yaml not found"], [], 0⟩
  | .file none => .error ()
  | .file (some content) => .ok (dlist (pkgD content) firebase_packages)

/-- Delta of `check_security_rules`, as a function of the states of the
two rule files. -/
def securityD (fsr str' : FileState) : Delta :=
  dcomp
    (if fsr.existsb then ⟨[], [], 1⟩
     else ⟨[], ["Firestore security rules not found"], 0⟩)
    (if str'.existsb then ⟨[], [], 1⟩
     else ⟨[], ["Storage security rules not found"], 0⟩)

/-- Delta of `check_build_status`, as a function of the build outcome. -/
def buildD : BuildResult → Delta
  | .completed returncode stderr =>
    if returncode == 0 then ⟨[], [], 1⟩
    else ⟨["Build failed: " ++ stderr], [], 0⟩
  | .timedOut => ⟨[], ["Build timed out (this is normal for first build)"], 0⟩
  | .flutterNotFound => ⟨["Flutter not found in PATH"], [], 0⟩
  | .otherError e => ⟨["Build check failed: " ++ e], [], 0⟩

/-- Delta of an entire run: the seven group deltas in source order,
failing exactly when the first unreadable content read fails. -/
def runD (fs : FS) (b : BuildResult) : Except Unit Delta := do
  let d1 ← optionsD (fs "lib/firebase_options.dart")
  let d2 ← androidD (fs "android/app/google-services.json")
    (fs "android/app/build.gradle")
  let d3 ← iosD (fs "ios/Runner/GoogleService-Info.plist")
    (fs "ios/Runner/Info.plist")
  let d4 ← webD (fs "web/index.html")
  let d5 ← depsD (fs "pubspec.yaml")
  let d6 := securityD (fs "firestore.rules") (fs "storage.rules")
  let d7 := buildD b
  return dcomp d1 (dcomp d2 (dcomp d3 (dcomp d4 (dcomp d5 (dcomp d6 d7)))))

/-- The issue messages `check_firebase_options` can produce. -/
def optionsIssueMsgs : List String :=
  ["Firebase options file not found",
   "Found placeholder pattern: placeholder-project-id",
   "Found placeholder pattern: your-project-id",
   "Found placeholder pattern: your-app-id",
   "Found placeholder pattern: your-api-key",
   "Found placeholder pattern: example\\.com",
   "Found placeholder pattern: com\\.example\\.",
   "Real Firebase project ID not found"]

/-- The warning messages `check_firebase_options` can produce. -/
def optionsWarningMsgs : List String :=
  ["Android configuration missing", "Ios configuration missing",
   "Web configuration missing", "Macos configuration missing",
   "Windows configuration missing"]

/-- The warning messages `check_dependencies` can produce. -/
def depsWarningMsgs : List String :=
  ["firebase_core dependency missing", "firebase_auth dependency missing",
   "cloud_firestore dependency missing", "firebase_storage dependency missing",
   "firebase_messaging dependency missing",
   "firebase_analytics dependency missing",
   "firebase_remote_config dependency missing"]

/-- The states of `FirebaseDeploymentVerifier` reachable by any sequence
of `log_success` / `log_warning` / `log_error` calls from the initial
state. -/
inductive Reachable : St → Prop where
  | init : Reachable initSt
  | succ (st : St) (m : String) : Reachable st → Reachable (log_success st m)
  | warn (st : St) (m : String) : Reachable st → Reachable (log_warning st m)
  | err (st : St) (m : String) : Reachable st → Reachable (log_error st m)

/-- A concrete filesystem on which every check succeeds: every probed
file exists, is readable, and carries the substrings the checks look
for. -/
def fsGood : FS := fun p =>
  if p = "lib/firebase_options.dart" then
    .file (some ("lca5kr3efmasxydmsi1rvyjoizifj4 static const FirebaseOptions android " ++
      "static const FirebaseOptions ios static const FirebaseOptions web " ++
      "static const FirebaseOptions macos static const FirebaseOptions windows"))
  else if p = "android/app/build.gradle" then
    .file (some "com.google.gms.google-services firebase-bom")
  else if p = "ios/Runner/Info.plist" then .file (some "CFBundleURLTypes")
  else if p = "web/index.html" then .file (some "firebase")
  else if p = "pubspec.yaml" then
    .file (some ("firebase_core firebase_auth cloud_firestore firebase_storage " ++
      "firebase_messaging firebase_analytics firebase_remote_config"))
  else .file (some "")

/-- Pipeline in the spec's stated control-flow order: options file, then
the per-platform configuration groups (android, ios, web), then the
dependency manifest, then the security rules, then the build attempt;
the final aggregator state is available only after all groups have run. -/
def pipelineSpec (fs : FS) (b : BuildResult) : Except Unit St := do
  let st ← check_firebase_options fs initSt
  let st ← check_android_config fs st
  let st ← check_ios_config fs st
  let st ← check_web_config fs st
  let st ← check_dependencies fs st
  let st := check_security_rules fs st
  return check_build_status b st

/-- Resulting state of one check group (`initSt` in the unreached error
case); observation helper. -/
def stOfCheck (e : Except Unit St) : St :=
  match e with
  | .ok s => s
  | .error _ => initSt

/-- Number of checks a delta records (its contribution to
`total_checks`). -/
def dTotal (d : Delta) : Nat :=
  d.dIssues.length + d.dWarnings.length + d.dSucc

theorem applyD_demp (st : St) : applyD st demp = st := by
  cases st; simp [applyD, demp]

theorem dcomp_assoc (a b c : Delta) :
    dcomp (dcomp a b) c = dcomp a (dcomp b c) := by
  simp [dcomp, List.append_assoc, Nat.add_assoc]

theorem applyD_dcomp (st : St) (d e : Delta) :
    applyD (applyD st d) e = applyD st (dcomp d e) := by
  cases st; cases d; cases e
  simp [applyD, dcomp, List.length_append, List.append_assoc]
  omega

theorem log_error_applyD (st : St) (m : String) :
    log_error st m = applyD st ⟨[m], [], 0⟩ := by
  cases st; simp [log_error, applyD]

theorem log_warning_applyD (st : St) (m : String) :
    log_warning st m = applyD st ⟨[], [m], 0⟩ := by
  cases st; simp [log_warning, applyD]

theorem log_success_applyD (st : St) (m : String) :
    log_success st m = applyD st ⟨[], [], 1⟩ := by
  cases st; simp [log_success, applyD]

theorem foldl_applyD {α : Type} (g : St → α → St) (f : α → Delta)
    (h : ∀ s a, g s a = applyD s (f a)) (l : List α) :
    ∀ st : St, l.foldl g st = applyD st (dlist f l) := by
  induction l with
  | nil => intro st; simp [dlist, applyD_demp]
  | cons a l ih =>
    intro st
    rw [List.foldl_cons, h, ih, applyD_dcomp]
    rfl

theorem check_file_exists_applyD (fs : FS) (p d : String) (st : St) :
    check_file_exists fs p d st =
      ((fs p).existsb, applyD st (fileCheckD (fs p) p d)) := by
  unfold check_file_exists fileCheckD
  split
  · next h => rw [log_success_applyD]; simp [h]
  · next h => rw [log_error_applyD]; simp at h; simp [h]

theorem ph_fold (content : String) (st : St) :
    placeholder_patterns.foldl
      (fun s p =>
        if containsSub p.2 content then
          log_error s ("Found placeholder pattern: " ++ p.1)
        else s) st
    = applyD st (dlist (phD content) placeholder_patterns) := by
  apply foldl_applyD
  intro s p
  unfold phD
  by_cases h : containsSub p.2 content = true
  · simp only [h, if_true]
    exact log_error_applyD s _
  · simp only [h, if_false]
    exact (applyD_demp s).symm

theorem realId_if (content : String) (s : St) :
    (if containsSub "lca5kr3efmasxydmsi1rvyjoizifj4" content then
        log_success s "Real Firebase project ID found"
      else log_error s "Real Firebase project ID not found")
    = applyD s (realIdD content) := by
  unfold realIdD
  by_cases h : containsSub "lca5kr3efmasxydmsi1rvyjoizifj4" content = true
  · simp only [h, if_true]
    exact log_success_applyD s _
  · simp only [h, if_false]
    exact log_error_applyD s _

theorem plat_fold (content : String) (st : St) :
    platforms.foldl
      (fun s platform =>
        if containsSub ("static const FirebaseOptions " ++ platform) content then
          log_success s (strCapitalize platform ++ " configuration present")
        else
          log_warning s (strCapitalize platform ++ " configuration missing")) st
    = applyD st (dlist (platD content) platforms) := by
  apply foldl_applyD
  intro s platform
  unfold platD
  by_cases h : containsSub ("static const FirebaseOptions " ++ platform) content = true
  · simp only [h, if_true]
    exact log_success_applyD s _
  · simp only [h, if_false]
    exact log_warning_applyD s _

theorem check_firebase_options_applyD (fs : FS) (st : St) :
    check_firebase_options fs st =
      Except.map (applyD st) (optionsD (fs "lib/firebase_options.dart")) := by
  unfold check_firebase_options optionsD
  cases h : fs "lib/firebase_options.dart" with
  | absent => simp [FileState.existsb, Except.map, log_error_applyD]
  | file o =>
    cases o with
    | none =>
      simp [FileState.existsb, readText, Except.map, Bind.bind, Except.bind]
    | some content =>
      simp only [FileState.existsb, Bool.not_true, Bool.false_eq_true, if_false,
        readText, Except.map, Bind.bind, Except.bind, pure, Except.pure]
      rw [ph_fold, realId_if, plat_fold, applyD_dcomp, applyD_dcomp, dcomp_assoc]

theorem check_android_config_applyD (fs : FS) (st : St) :
    check_android_config fs st =
      Except.map (applyD st)
        (androidD (fs "android/app/google-services.json")
          (fs "android/app/build.gradle")) := by
  unfold check_android_config androidD
  rw [check_file_exists_applyD]
  cases hg : fs "android/app/build.gradle" with
  | absent => simp [FileState.existsb, Except.map, pure, Except.pure]
  | file o =>
    cases o with
    | none =>
      simp [FileState.existsb, readText, Except.map, Bind.bind, Except.bind]
    | some content =>
      by_cases h1 : containsSub "com.google.gms.google-services" content = true
      <;> by_cases h2 : containsSub "firebase-bom" content = true
      <;> simp [FileState.existsb, readText, Except.map, Bind.bind, Except.bind,
            pure, Except.pure, androidContentD, h1, h2,
            log_success_applyD, log_warning_applyD, log_error_applyD,
            applyD_dcomp, dcomp_assoc]

theorem check_ios_config_applyD (fs : FS) (st : St) :
    check_ios_config fs st =
      Except.map (applyD st)
        (iosD (fs "ios/Runner/GoogleService-Info.plist")
          (fs "ios/Runner/Info.plist")) := by
  unfold check_ios_config iosD
  rw [check_file_exists_applyD]
  cases hg : fs "ios/Runner/Info.plist" with
  | absent => simp [FileState.existsb, Except.map, pure, Except.pure]
  | file o =>
    cases o with
    | none =>
      simp [FileState.existsb, readText, Except.map, Bind.bind, Except.bind]
    | some content =>
      by_cases h1 : containsSub "CFBundleURLTypes" content = true
      <;> simp [FileState.existsb, readText, Except.map, Bind.bind, Except.bind,
            pure, Except.pure, h1, log_success_applyD, log_warning_applyD,
            applyD_dcomp, dcomp_assoc]

theorem check_web_config_applyD (fs : FS) (st : St) :
    check_web_config fs st =
      Except.map (applyD st) (webD (fs "web/index.html")) := by
  unfold check_web_config webD
  cases hg : fs "web/index.html" with
  | absent => simp [FileState.existsb, Except.map, log_warning_applyD]
  | file o =>
    cases o with
    | none =>
      simp [FileState.existsb, readText, Except.map, Bind.bind, Except.bind]
    | some content =>
      by_cases h1 : containsSub "firebase" (strLower content) = true
      <;> simp [FileState.existsb, readText, Except.map, Bind.bind, Except.bind,
            pure, Except.pure, h1, log_success_applyD, log_warning_applyD]

theorem pkg_fold (content : String) (st : St) :
    firebase_packages.foldl
      (fun s package =>
        if containsSub package content then
          log_success s (package ++ " dependency present")
        else
          log_warning s (package ++ " dependency missing")) st
    = applyD st (dlist (pkgD content) firebase_packages) := by
  apply foldl_applyD
  intro s package
  unfold pkgD
  by_cases h : containsSub package content = true
  · simp only [h, if_true]
    exact log_success_applyD s _
  · simp only [h, if_false]
    exact log_warning_applyD s _

theorem check_dependencies_applyD (fs : FS) (st : St) :
    check_dependencies fs st =
      Except.map (applyD st) (depsD (fs "pubspec.yaml")) := by
  unfold check_dependencies depsD
  cases hg : fs "pubspec.yaml" with
  | absent => simp [FileState.existsb, Except.map, log_error_applyD]
  | file o =>
    cases o with
    | none =>
      simp [FileState.existsb, readText, Except.map, Bind.bind, Except.bind]
    | some content =>
      simp only [FileState.existsb, Bool.not_true, Bool.false_eq_true, if_false,
        readText, Except.map, Bind.bind, Except.bind, pure, Except.pure]
      rw [pkg_fold]

theorem check_security_rules_applyD (fs : FS) (st : St) :
    check_security_rules fs st =
      applyD st (securityD (fs "firestore.rules") (fs "storage.rules")) := by
  unfold check_security_rules securityD
  by_cases h1 : (fs "firestore.rules").existsb = true
  <;> by_cases h2 : (fs "storage.rules").existsb = true
  <;> simp [h1, h2, log_success_applyD, log_warning_applyD,
        applyD_dcomp, dcomp_assoc]

theorem check_build_status_applyD (b : BuildResult) (st : St) :
    check_build_status b st = applyD st (buildD b) := by
  unfold check_build_status buildD
  cases b with
  | completed returncode stderr =>
    by_cases h : (returncode == 0) = true
    <;> simp [h, log_success_applyD, log_error_applyD]
  | timedOut => exact log_warning_applyD st _
  | flutterNotFound => exact log_error_applyD st _
  | otherError e => exact log_error_applyD st _

theorem run_all_checks_applyD (fs : FS) (b : BuildResult) :
    run_all_checks fs b =
      Except.map
        (fun d =>
          let st := applyD initSt d
          (st.issues.length == 0, st, generate_report st))
        (runD fs b) := by
  unfold run_all_checks runD
  rw [check_firebase_options_applyD]
  cases optionsD (fs "lib/firebase_options.dart") with
  | error e => simp [Except.map, Bind.bind, Except.bind]
  | ok d1 =>
    simp only [Except.map, Bind.bind, Except.bind]
    rw [check_android_config_applyD]
    cases androidD (fs "android/app/google-services.json")
        (fs "android/app/build.gradle") with
    | error e => simp [Except.map, Bind.bind, Except.bind]
    | ok d2 =>
      simp only [Except.map, Bind.bind, Except.bind]
      rw [check_ios_config_applyD]
      cases iosD (fs "ios/Runner/GoogleService-Info.plist")
          (fs "ios/Runner/Info.plist") with
      | error e => simp [Except.map, Bind.bind, Except.bind]
      | ok d3 =>
        simp only [Except.map, Bind.bind, Except.bind]
        rw [check_web_config_applyD]
        cases webD (fs "web/index.html") with
        | error e => simp [Except.map, Bind.bind, Except.bind]
        | ok d4 =>
          simp only [Except.map, Bind.bind, Except.bind]
          rw [check_dependencies_applyD]
          cases depsD (fs "pubspec.yaml") with
          | error e => simp [Except.map, Bind.bind, Except.bind]
          | ok d5 =>
            simp only [Except.map, Bind.bind, Except.bind, pure, Except.pure]
            rw [check_security_rules_applyD, check_build_status_applyD,
              applyD_dcomp, applyD_dcomp, applyD_dcomp, applyD_dcomp,
              applyD_dcomp, applyD_dcomp]

/-! ### Counting and membership support -/

theorem count_issues_applyD (st : St) (d : Delta) (x : String) :
    (applyD st d).issues.count x = st.issues.count x + d.dIssues.count x := by
  simp [applyD, List.count_append]

theorem count_warnings_applyD (st : St) (d : Delta) (x : String) :
    (applyD st d).warnings.count x =
      st.warnings.count x + d.dWarnings.count x := by
  simp [applyD, List.count_append]

theorem count_dcomp_issues (d e : Delta) (x : String) :
    (dcomp d e).dIssues.count x = d.dIssues.count x + e.dIssues.count x := by
  simp [dcomp, List.count_append]

theorem count_dcomp_warnings (d e : Delta) (x : String) :
    (dcomp d e).dWarnings.count x =
      d.dWarnings.count x + e.dWarnings.count x := by
  simp [dcomp, List.count_append]

theorem count_eq_zero_of_sub {L : List String} {l : List String} (x : String)
    (hsub : l ⊆ L) (hx : x ∉ L) : l.count x = 0 :=
  List.count_eq_zero.mpr (fun hmem => hx (hsub hmem))

theorem dlist_proj_sub {α : Type} (sel : Delta → List String)
    (hdemp : sel demp = []) (hdc : ∀ d e, sel (dcomp d e) = sel d ++ sel e)
    (f : α → Delta) (L : List String) (l : List α)
    (h : ∀ a ∈ l, sel (f a) ⊆ L) : sel (dlist f l) ⊆ L := by
  induction l with
  | nil => simp [dlist, hdemp]
  | cons a l ih =>
    simp only [dlist, hdc, List.append_subset]
    exact ⟨h a (List.mem_cons_self a l),
      ih (fun a ha => h a (List.mem_cons_of_mem _ ha))⟩

theorem dIssues_dcomp (d e : Delta) :
    (dcomp d e).dIssues = d.dIssues ++ e.dIssues := rfl

theorem dWarnings_dcomp (d e : Delta) :
    (dcomp d e).dWarnings = d.dWarnings ++ e.dWarnings := rfl

/-- Two strings differ when their first characters differ, whatever is
appended after the first. -/
theorem append_ne_of_head (a q : String) (c c' : Char) (ta tq : List Char)
    (ha : a.data = c :: ta) (hq : q.data = c' :: tq) (hcc : c ≠ c')
    (s : String) : a ++ s ≠ q := by
  intro he
  have hd : a.data ++ s.data = q.data := congrArg String.data he
  rw [ha, hq, List.cons_append] at hd
  injection hd with h1 _
  exact hcc h1

/-- Two strings differ when their second characters differ, whatever is
appended after the second. -/
theorem append_ne_of_second (a q : String) (c1 c2 c1' c2' : Char)
    (ta tq : List Char) (ha : a.data = c1 :: c2 :: ta)
    (hq : q.data = c1' :: c2' :: tq) (hcc : c2 ≠ c2') (s : String) :
    a ++ s ≠ q := by
  intro he
  have hd : a.data ++ s.data = q.data := congrArg String.data he
  rw [ha, hq, List.cons_append] at hd
  injection hd with _ hd2
  injection hd2 with h2 _
  exact hcc h2

theorem optionsD_sub (f : FileState) (d : Delta) (h : optionsD f = .ok d) :
    d.dIssues ⊆ optionsIssueMsgs ∧ d.dWarnings ⊆ optionsWarningMsgs := by
  cases f with
  | absent =>
    simp only [optionsD, Except.ok.injEq] at h
    subst h
    exact ⟨by decide, by decide⟩
  | file o =>
    cases o with
    | none => simp [optionsD] at h
    | some c =>
      simp only [optionsD, Except.ok.injEq] at h
      subst h
      constructor
      · simp only [dIssues_dcomp, List.append_subset]
        refine ⟨⟨?_, ?_⟩, ?_⟩
        · refine dlist_proj_sub Delta.dIssues rfl (fun _ _ => rfl) _ _ _ ?_
          intro p hp
          unfold phD
          split
          · intro x hx
            simp only [List.mem_singleton] at hx
            subst hx
            fin_cases hp <;> decide
          · simp [demp]
        · unfold realIdD
          split <;> simp [optionsIssueMsgs]
        · refine dlist_proj_sub Delta.dIssues rfl (fun _ _ => rfl) _ _ _ ?_
          intro p hp
          unfold platD
          split <;> simp
      · simp only [dWarnings_dcomp, List.append_subset]
        refine ⟨⟨?_, ?_⟩, ?_⟩
        · refine dlist_proj_sub Delta.dWarnings rfl (fun _ _ => rfl) _ _ _ ?_
          intro p hp
          unfold phD
          split <;> simp [demp]
        · unfold realIdD
          split <;> simp
        · refine dlist_proj_sub Delta.dWarnings rfl (fun _ _ => rfl) _ _ _ ?_
          intro p hp
          unfold platD
          split
          · simp
          · intro x hx
            simp only [List.mem_singleton] at hx
            subst hx
            fin_cases hp <;> decide

theorem fileCheckD_sub (f : FileState) (p desc : String) :
    (fileCheckD f p desc).dIssues ⊆ [desc ++ ": " ++ p ++ " - FILE MISSING"] ∧
    (fileCheckD f p desc).dWarnings = [] := by
  unfold fileCheckD
  split <;> simp

theorem fileCheckD_absent (p desc : String) :
    fileCheckD .absent p desc =
      ⟨[desc ++ ": " ++ p ++ " - FILE MISSING"], [], 0⟩ := rfl

theorem androidD_sub (gs gradle : FileState) (d : Delta)
    (h : androidD gs gradle = .ok d) :
    d.dIssues ⊆
      ["Google Services JSON: android/app/google-services.json - FILE MISSING",
       "Google Services plugin not integrated"] ∧
    d.dWarnings ⊆ ["Firebase BoM dependency missing"] := by
  have hfc := fileCheckD_sub gs "android/app/google-services.json"
    "Google Services JSON"
  cases gradle with
  | absent =>
    simp only [androidD, Except.ok.injEq] at h
    subst h
    refine ⟨fun x hx => ?_, by simp [hfc.2]⟩
    have := hfc.1 hx
    simp only [List.mem_singleton] at this
    subst this
    simp
  | file o =>
    cases o with
    | none => simp [androidD] at h
    | some c =>
      simp only [androidD, Except.ok.injEq] at h
      subst h
      constructor
      · simp only [dIssues_dcomp, List.append_subset]
        refine ⟨fun x hx => ?_, ?_⟩
        · have := hfc.1 hx
          simp only [List.mem_singleton] at this
          subst this
          simp
        · simp only [androidContentD, dIssues_dcomp, List.append_subset]
          constructor <;> split <;> simp
      · simp only [dWarnings_dcomp, List.append_subset, hfc.2]
        refine ⟨by simp, ?_⟩
        simp only [androidContentD, dWarnings_dcomp, List.append_subset]
        constructor <;> split <;> simp

theorem iosD_sub (plist infoPlist : FileState) (d : Delta)
    (h : iosD plist infoPlist = .ok d) :
    d.dIssues ⊆
      ["GoogleService-Info.plist: ios/Runner/GoogleService-Info.plist - FILE MISSING"] ∧
    d.dWarnings ⊆ ["URL schemes not configured"] := by
  have hfc := fileCheckD_sub plist "ios/Runner/GoogleService-Info.plist"
    "GoogleService-Info.plist"
  cases infoPlist with
  | absent =>
    simp only [iosD, Except.ok.injEq] at h
    subst h
    exact ⟨hfc.1, by simp [hfc.2]⟩
  | file o =>
    cases o with
    | none => simp [iosD] at h
    | some c =>
      simp only [iosD, Except.ok.injEq] at h
      subst h
      constructor
      · simp only [dIssues_dcomp, List.append_subset]
        refine ⟨hfc.1, ?_⟩
        split <;> simp
      · simp only [dWarnings_dcomp, List.append_subset, hfc.2]
        refine ⟨by simp, ?_⟩
        split <;> simp

theorem webD_sub (f : FileState) (d : Delta) (h : webD f = .ok d) :
    d.dIssues = [] ∧
    d.dWarnings ⊆
      ["Web index.html not found", "Firebase scripts not found in index.html"] := by
  cases f with
  | absent =>
    simp only [webD, Except.ok.injEq] at h
    subst h
    exact ⟨rfl, by decide⟩
  | file o =>
    cases o with
    | none => simp [webD] at h
    | some c =>
      simp only [webD, Except.ok.injEq] at h
      subst h
      constructor
      · split <;> rfl
      · split <;> simp

theorem depsD_sub (f : FileState) (d : Delta) (h : depsD f = .ok d) :
    d.dIssues ⊆ ["pubspec.yaml not found"] ∧
    d.dWarnings ⊆ depsWarningMsgs := by
  cases f with
  | absent =>
    simp only [depsD, Except.ok.injEq] at h
    subst h
    exact ⟨by decide, by decide⟩
  | file o =>
    cases o with
    | none => simp [depsD] at h
    | some c =>
      simp only [depsD, Except.ok.injEq] at h
      subst h
      constructor
      · refine dlist_proj_sub Delta.dIssues rfl (fun _ _ => rfl) _ _ _ ?_
        intro p hp
        unfold pkgD
        split <;> simp
      · refine dlist_proj_sub Delta.dWarnings rfl (fun _ _ => rfl) _ _ _ ?_
        intro p hp
        unfold pkgD
        split
        · simp
        · intro x hx
          simp only [List.mem_singleton] at hx
          subst hx
          fin_cases hp <;> decide

theorem securityD_sub (f1 f2 : FileState) :
    (securityD f1 f2).dIssues = [] ∧
    (securityD f1 f2).dWarnings ⊆
      ["Firestore security rules not found",
       "Storage security rules not found"] := by
  unfold securityD
  constructor
  · simp only [dIssues_dcomp, List.append_eq_nil]
    constructor <;> split <;> rfl
  · simp only [dWarnings_dcomp, List.append_subset]
    constructor <;> split <;> simp

theorem buildD_issues_cases (b : BuildResult) :
    ∀ x ∈ (buildD b).dIssues,
      x = "Flutter not found in PATH" ∨
      (∃ s, x = "Build failed: " ++ s) ∨
      (∃ s, x = "Build check failed: " ++ s) := by
  cases b with
  | completed rc stderr =>
    intro x hx
    simp only [buildD] at hx
    split at hx
    · simp at hx
    · simp only [List.mem_singleton] at hx
      exact Or.inr (Or.inl ⟨stderr, hx⟩)
  | timedOut => simp [buildD]
  | flutterNotFound => simp [buildD]
  | otherError e =>
    intro x hx
    simp only [buildD, List.mem_singleton] at hx
    exact Or.inr (Or.inr ⟨e, hx⟩)

theorem buildD_warnings_sub (b : BuildResult) :
    (buildD b).dWarnings ⊆
      ["Build timed out (this is normal for first build)"] := by
  cases b with
  | completed rc stderr => simp only [buildD]; split <;> simp
  | timedOut => simp [buildD]
  | flutterNotFound => simp [buildD]
  | otherError e => simp [buildD]

theorem count_buildD_issues_eq_zero (b : BuildResult) (x : String)
    (h1 : x ≠ "Flutter not found in PATH")
    (h2 : ∀ s, "Build failed: " ++ s ≠ x)
    (h3 : ∀ s, "Build check failed: " ++ s ≠ x) :
    (buildD b).dIssues.count x = 0 := by
  rw [List.count_eq_zero]
  intro hmem
  rcases buildD_issues_cases b x hmem with h | ⟨s, hs⟩ | ⟨s, hs⟩
  · exact h1 h
  · exact h2 s hs.symm
  · exact h3 s hs.symm

/-- Inversion of a successful `runD`: the five fallible group deltas and
the decomposition of the total delta. -/
theorem runD_ok_parts (fs : FS) (b : BuildResult) (d : Delta)
    (h : runD fs b = .ok d) :
    ∃ d1 d2 d3 d4 d5,
      optionsD (fs "lib/firebase_options.dart") = .ok d1 ∧
      androidD (fs "android/app/google-services.json")
        (fs "android/app/build.gradle") = .ok d2 ∧
      iosD (fs "ios/Runner/GoogleService-Info.plist")
        (fs "ios/Runner/Info.plist") = .ok d3 ∧
      webD (fs "web/index.html") = .ok d4 ∧
      depsD (fs "pubspec.yaml") = .ok d5 ∧
      d = dcomp d1 (dcomp d2 (dcomp d3 (dcomp d4 (dcomp d5
        (dcomp (securityD (fs "firestore.rules") (fs "storage.rules"))
          (buildD b)))))) := by
  unfold runD at h
  cases h1 : optionsD (fs "lib/firebase_options.dart") with
  | error e => rw [h1] at h; simp [Bind.bind, Except.bind] at h
  | ok d1 =>
    rw [h1] at h
    simp only [Bind.bind, Except.bind] at h
    cases h2 : androidD (fs "android/app/google-services.json")
        (fs "android/app/build.gradle") with
    | error e => rw [h2] at h; simp at h
    | ok d2 =>
      rw [h2] at h
      simp only at h
      cases h3 : iosD (fs "ios/Runner/GoogleService-Info.plist")
          (fs "ios/Runner/Info.plist") with
      | error e => rw [h3] at h; simp at h
      | ok d3 =>
        rw [h3] at h
        simp only at h
        cases h4 : webD (fs "web/index.html") with
        | error e => rw [h4] at h; simp at h
        | ok d4 =>
          rw [h4] at h
          simp only at h
          cases h5 : depsD (fs "pubspec.yaml") with
          | error e => rw [h5] at h; simp at h
          | ok d5 =>
            rw [h5] at h
            simp only [pure, Except.pure, Except.ok.injEq] at h
            exact ⟨d1, d2, d3, d4, d5, rfl, rfl, rfl, rfl, rfl, h.symm⟩

theorem issuesOf_run (fs : FS) (b : BuildResult) (d : Delta)
    (h : runD fs b = .ok d) :
    issuesOf (run_all_checks fs b) = d.dIssues := by
  rw [issuesOf, run_all_checks_applyD, h]
  simp [stOfRun, Except.map, applyD, initSt]

theorem warningsOf_run (fs : FS) (b : BuildResult) (d : Delta)
    (h : runD fs b = .ok d) :
    warningsOf (run_all_checks fs b) = d.dWarnings := by
  rw [warningsOf, run_all_checks_applyD, h]
  simp [stOfRun, Except.map, applyD, initSt]

theorem optionsD_isOk (f : FileState) (h : f ≠ .file none) :
    ∃ d, optionsD f = .ok d := by
  cases f with
  | absent => exact ⟨_, rfl⟩
  | file o =>
    cases o with
    | none => exact absurd rfl h
    | some c => exact ⟨_, rfl⟩

theorem androidD_isOk (gs gradle : FileState) (h : gradle ≠ .file none) :
    ∃ d, androidD gs gradle = .ok d := by
  cases gradle with
  | absent => exact ⟨_, rfl⟩
  | file o =>
    cases o with
    | none => exact absurd rfl h
    | some c => exact ⟨_, rfl⟩

theorem iosD_isOk (plist infoPlist : FileState) (h : infoPlist ≠ .file none) :
    ∃ d, iosD plist infoPlist = .ok d := by
  cases infoPlist with
  | absent => exact ⟨_, rfl⟩
  | file o =>
    cases o with
    | none => exact absurd rfl h
    | some c => exact ⟨_, rfl⟩

theorem webD_isOk (f : FileState) (h : f ≠ .file none) :
    ∃ d, webD f = .ok d := by
  cases f with
  | absent => exact ⟨_, rfl⟩
  | file o =>
    cases o with
    | none => exact absurd rfl h
    | some c => exact ⟨_, rfl⟩

theorem depsD_isOk (f : FileState) (h : f ≠ .file none) :
    ∃ d, depsD f = .ok d := by
  cases f with
  | absent => exact ⟨_, rfl⟩
  | file o =>
    cases o with
    | none => exact absurd rfl h
    | some c => exact ⟨_, rfl⟩

/-- On a readable filesystem every run completes: `runD` succeeds. -/
theorem runD_isOk (fs : FS) (b : BuildResult) (h : Readable fs) :
    ∃ d, runD fs b = .ok d := by
  obtain ⟨d1, h1⟩ := optionsD_isOk _ (h "lib/firebase_options.dart")
  obtain ⟨d2, h2⟩ := androidD_isOk (fs "android/app/google-services.json") _
    (h "android/app/build.gradle")
  obtain ⟨d3, h3⟩ := iosD_isOk (fs "ios/Runner/GoogleService-Info.plist") _
    (h "ios/Runner/Info.plist")
  obtain ⟨d4, h4⟩ := webD_isOk _ (h "web/index.html")
  obtain ⟨d5, h5⟩ := depsD_isOk _ (h "pubspec.yaml")
  refine ⟨dcomp d1 (dcomp d2 (dcomp d3 (dcomp d4 (dcomp d5
    (dcomp (securityD (fs "firestore.rules") (fs "storage.rules"))
      (buildD b)))))), ?_⟩
  unfold runD
  rw [h1, h2, h3, h4, h5]
  rfl

/-- Inversion of a successful `run_all_checks`: the result is built from
the total run delta. -/
theorem run_ok_inv (fs : FS) (b : BuildResult) (r : Bool × St × List String)
    (h : run_all_checks fs b = .ok r) :
    ∃ d, runD fs b = .ok d ∧
      r = ((applyD initSt d).issues.length == 0, applyD initSt d,
        generate_report (applyD initSt d)) := by
  rw [run_all_checks_applyD] at h
  cases hd : runD fs b with
  | error e => rw [hd] at h; simp [Except.map] at h
  | ok d =>
    rw [hd] at h
    simp only [Except.map, Except.ok.injEq] at h
    exact ⟨d, rfl, h.symm⟩

/-- C2: in every reachable aggregator state, `total_checks` equals
`success_count` plus the number of warnings plus the number of issues;
each record operation increments `total_checks` by exactly one, adds to
exactly one category, and removes nothing (the previous lists survive as
prefixes and the counters never decrease). -/
theorem C2_aggregator_invariant (st : St) (h : Reachable st) :
    st.total_checks =
      st.success_count + st.warnings.length + st.issues.length ∧
    (∀ m, (log_success st m).total_checks = st.total_checks + 1 ∧
      (log_success st m).success_count = st.success_count + 1 ∧
      (log_success st m).warnings = st.warnings ∧
      (log_success st m).issues = st.issues) ∧
    (∀ m, (log_warning st m).total_checks = st.total_checks + 1 ∧
      (log_warning st m).warnings = st.warnings ++ [m] ∧
      (log_warning st m).success_count = st.success_count ∧
      (log_warning st m).issues = st.issues) ∧
    (∀ m, (log_error st m).total_checks = st.total_checks + 1 ∧
      (log_error st m).issues = st.issues ++ [m] ∧
      (log_error st m).success_count = st.success_count ∧
      (log_error st m).warnings = st.warnings) := by
  refine ⟨?_, fun m => ⟨rfl, rfl, rfl, rfl⟩, fun m => ⟨rfl, rfl, rfl, rfl⟩,
    fun m => ⟨rfl, rfl, rfl, rfl⟩⟩
  induction h with
  | init => rfl
  | succ st m _ ih => simp only [log_success]; omega
  | warn st m _ ih => simp [log_warning]; omega
  | err st m _ ih => simp [log_error]; omega

/-- Witness for C2 at a concrete reachable state (one success, one
warning, one error recorded). -/
theorem C2_witness :
    (log_error (log_warning (log_success initSt "a") "b") "c").total_checks =
      (log_error (log_warning (log_success initSt "a") "b") "c").success_count +
      (log_error (log_warning (log_success initSt "a") "b") "c").warnings.length +
      (log_error (log_warning (log_success initSt "a") "b") "c").issues.length :=
  (C2_aggregator_invariant _
    (Reachable.err _ _ (Reachable.warn _ _ (Reachable.succ _ _ Reachable.init)))).1

/-- C3: when `main` terminates, its exit code is 0 exactly when the final
issues list is empty (whatever the warnings list holds) and 1 exactly
when it is non-empty. -/
theorem C3_exit_code (fs : FS) (b : BuildResult) (code : Nat) (st : St)
    (rep : List String) (h : main fs b = .ok (code, st, rep)) :
    (code = 0 ↔ st.issues.length = 0) ∧ (code = 1 ↔ st.issues.length ≠ 0) := by
  unfold main at h
  rw [run_all_checks_applyD] at h
  cases hd : runD fs b with
  | error e => rw [hd] at h; simp [Except.map, Bind.bind, Except.bind] at h
  | ok d =>
    rw [hd] at h
    simp only [Except.map, Bind.bind, Except.bind] at h
    by_cases hc : ((applyD initSt d).issues.length == 0) = true
    · rw [if_pos hc] at h
      simp only [pure, Except.pure, Except.ok.injEq, Prod.mk.injEq] at h
      obtain ⟨hcode, hst, -⟩ := h
      subst hcode
      subst hst
      have hl : (applyD initSt d).issues.length = 0 := by simpa using hc
      simp [hl]
    · rw [if_neg hc] at h
      simp only [pure, Except.pure, Except.ok.injEq, Prod.mk.injEq] at h
      obtain ⟨hcode, hst, -⟩ := h
      subst hcode
      subst hst
      have hl : (applyD initSt d).issues.length ≠ 0 := by
        intro hz
        exact hc (by simp [hz])
      simp [hl]

/-- Witness for C3 at `fsGood` with a successful build: exit code 0 with
an empty issues list. -/
theorem C3_witness :
    ((0 : Nat) = 0 ↔ (St.mk [] [] 22 22).issues.length = 0) ∧
    ((0 : Nat) = 1 ↔ (St.mk [] [] 22 22).issues.length ≠ 0) :=
  C3_exit_code fsGood (.completed 0 "") 0 ⟨[], [], 22, 22⟩
    ["\n" ++ sepLine, "📊 FIREBASE DEPLOYMENT READINESS REPORT", sepLine,
     "\nTotal Checks: 22", "✅ Successful: 22", "⚠️  Warnings: 0", "❌ Issues: 0",
     "\n🎉 DEPLOYMENT STATUS: READY!",
     "   Your Firebase configuration is ready for production deployment.",
     "\n" ++ sepLine]
    (by rfl)

theorem pipelineSpec_applyD (fs : FS) (b : BuildResult) :
    pipelineSpec fs b = Except.map (applyD initSt) (runD fs b) := by
  unfold pipelineSpec runD
  rw [check_firebase_options_applyD]
  cases optionsD (fs "lib/firebase_options.dart") with
  | error e => simp [Except.map, Bind.bind, Except.bind]
  | ok d1 =>
    simp only [Except.map, Bind.bind, Except.bind]
    rw [check_android_config_applyD]
    cases androidD (fs "android/app/google-services.json")
        (fs "android/app/build.gradle") with
    | error e => simp [Except.map, Bind.bind, Except.bind]
    | ok d2 =>
      simp only [Except.map, Bind.bind, Except.bind]
      rw [check_ios_config_applyD]
      cases iosD (fs "ios/Runner/GoogleService-Info.plist")
          (fs "ios/Runner/Info.plist") with
      | error e => simp [Except.map, Bind.bind, Except.bind]
      | ok d3 =>
        simp only [Except.map, Bind.bind, Except.bind]
        rw [check_web_config_applyD]
        cases webD (fs "web/index.html") with
        | error e => simp [Except.map, Bind.bind, Except.bind]
        | ok d4 =>
          simp only [Except.map, Bind.bind, Except.bind]
          rw [check_dependencies_applyD]
          cases depsD (fs "pubspec.yaml") with
          | error e => simp [Except.map, Bind.bind, Except.bind]
          | ok d5 =>
            simp only [Except.map, Bind.bind, Except.bind, pure, Except.pure]
            rw [check_security_rules_applyD, check_build_status_applyD,
              applyD_dcomp, applyD_dcomp, applyD_dcomp, applyD_dcomp,
              applyD_dcomp, applyD_dcomp]

/-- C9: the run is exactly the spec-ordered pipeline — the check groups
execute sequentially in the fixed order (options file, android, ios,
web, dependency manifest, security rules, build attempt), the report is
rendered from the aggregator state only after all groups have run, and
the exit code is 0 when the issues list is empty and 1 otherwise. -/
theorem C9_fixed_order_pipeline (fs : FS) (b : BuildResult) :
    run_all_checks fs b =
      Except.map (fun st => (st.issues.length == 0, st, generate_report st))
        (pipelineSpec fs b) ∧
    main fs b =
      Except.map (fun st =>
        ((if st.issues.length == 0 then (0 : Nat) else 1), st,
          generate_report st))
        (pipelineSpec fs b) := by
  constructor
  · rw [run_all_checks_applyD, pipelineSpec_applyD]
    cases runD fs b <;> rfl
  · rw [pipelineSpec_applyD]
    unfold main
    rw [run_all_checks_applyD]
    cases hd : runD fs b with
    | error e => simp [Except.map, Bind.bind, Except.bind]
    | ok d =>
      simp only [Except.map, Bind.bind, Except.bind]
      by_cases hc : ((applyD initSt d).issues.length == 0) = true
      · rw [if_pos hc, if_pos hc]; rfl
      · rw [if_neg hc, if_neg hc]; rfl

theorem bullet_ne_ready (m : String) : bulletLine m ≠ readyBanner :=
  append_ne_of_head "   • " readyBanner ' ' '\n' _ _ rfl rfl (by decide) m

theorem total_line_ne_ready (s : String) :
    "\nTotal Checks: " ++ s ≠ readyBanner :=
  append_ne_of_second "\nTotal Checks: " readyBanner '\n' 'T' '\n' '🎉' _ _
    rfl rfl (by decide) s

theorem success_line_ne_ready (s : String) :
    "✅ Successful: " ++ s ≠ readyBanner :=
  append_ne_of_head "✅ Successful: " readyBanner '✅' '\n' _ _ rfl rfl
    (by decide) s

theorem warn_line_ne_ready (s : String) :
    "⚠️  Warnings: " ++ s ≠ readyBanner :=
  append_ne_of_head "⚠️  Warnings: " readyBanner '⚠' '\n' _ _ rfl rfl
    (by decide) s

theorem issue_line_ne_ready (s : String) :
    "❌ Issues: " ++ s ≠ readyBanner :=
  append_ne_of_head "❌ Issues: " readyBanner '❌' '\n' _ _ rfl rfl
    (by decide) s

theorem ready_ne_total_line (s : String) :
    readyBanner ≠ "\nTotal Checks: " ++ s := (total_line_ne_ready s).symm

theorem ready_ne_success_line (s : String) :
    readyBanner ≠ "✅ Successful: " ++ s := (success_line_ne_ready s).symm

theorem ready_ne_warn_line (s : String) :
    readyBanner ≠ "⚠️  Warnings: " ++ s := (warn_line_ne_ready s).symm

theorem ready_ne_issue_line (s : String) :
    readyBanner ≠ "❌ Issues: " ++ s := (issue_line_ne_ready s).symm

theorem ready_ne_bullet (m : String) :
    readyBanner ≠ bulletLine m := (bullet_ne_ready m).symm

theorem ready_not_mem_report_of_issues (st : St) (i : String)
    (is : List String) (hi : st.issues = i :: is) :
    readyBanner ∉ generate_report st := by
  intro hmem
  by_cases hw : st.warnings.isEmpty <;>
    simp [generate_report, hi, hw, bullet_ne_ready, ready_ne_total_line,
      ready_ne_success_line, ready_ne_warn_line, ready_ne_issue_line,
      ready_ne_bullet,
      (by decide : readyBanner ≠ "\n" ++ sepLine),
      (by decide : readyBanner ≠ sepLine),
      (by decide : readyBanner ≠ "📊 FIREBASE DEPLOYMENT READINESS REPORT"),
      (by decide : readyBanner ≠ "\n❌ CRITICAL ISSUES TO FIX:"),
      (by decide : readyBanner ≠ "\n⚠️  WARNINGS TO ADDRESS:"),
      (by decide : readyBanner ≠ "\n🚨 DEPLOYMENT STATUS: NOT READY"),
      (by decide : readyBanner ≠ "   Please fix the critical issues before deploying.")]
      at hmem

/-- C1: the READY banner is printed by `generate_report` exactly when the
issues list is empty; `run_all_checks` returns `true` exactly when the
final issues list is empty; and a non-empty warnings list never turns a
Ready status into NotReady (the banner only depends on the issues
list). -/
theorem C1_ready_iff_no_errors (st : St) :
    (readyBanner ∈ generate_report st ↔ st.issues = []) ∧
    (∀ fs b r, run_all_checks fs b = .ok r →
      (r.1 = true ↔ r.2.1.issues = [])) ∧
    (∀ w : List String, st.issues = [] →
      readyBanner ∈ generate_report { st with warnings := w }) := by
  have hmain : ∀ s : St, readyBanner ∈ generate_report s ↔ s.issues = [] := by
    intro s
    constructor
    · intro hmem
      cases hi : s.issues with
      | nil => rfl
      | cons i is => exact absurd hmem (ready_not_mem_report_of_issues s i is hi)
    · intro hi
      by_cases hw : s.warnings.isEmpty <;>
        simp [generate_report, hi, hw, readyBanner]
  refine ⟨hmain st, ?_, fun w hw => (hmain _).mpr hw⟩
  intro fs b r hr
  obtain ⟨d, -, hform⟩ := run_ok_inv fs b r hr
  subst hform
  simp [List.length_eq_zero]

/-- Witness for C1 at the initial state: the banner is in the report of a
state with no issues. -/
theorem C1_witness : readyBanner ∈ generate_report initSt :=
  (C1_ready_iff_no_errors initSt).1.mpr rfl

/-- Counterexample to C4: on a filesystem whose options file exists but
whose text content cannot be read, the `read_text` failure is not caught
by the check group — the run aborts with an unhandled fault, the
remaining groups never execute, and no report is rendered. -/
theorem C4_counterexample :
    run_all_checks
      (fun p => if p = "lib/firebase_options.dart" then
        FileState.file none else .absent)
      .timedOut = .error () := rfl

/-- C4 (amended): when every existing file's text content is readable,
the run completes all check groups and renders a report from the final
state, and a missing file is a normal negative result — the existence
probe never raises, it records a `FILE MISSING` error and returns
`false`. -/
theorem C4_completes_when_readable (fs : FS) (b : BuildResult)
    (h : Readable fs) :
    (∃ st : St, run_all_checks fs b =
      .ok (st.issues.length == 0, st, generate_report st)) ∧
    (∀ p desc st, fs p = .absent →
      check_file_exists fs p desc st =
        (false, log_error st (desc ++ ": " ++ p ++ " - FILE MISSING"))) := by
  constructor
  · obtain ⟨d, hd⟩ := runD_isOk fs b h
    exact ⟨applyD initSt d, by rw [run_all_checks_applyD, hd]; rfl⟩
  · intro p desc st hp
    unfold check_file_exists
    rw [hp]
    rfl

theorem fsGood_readable : Readable fsGood := by
  intro p
  unfold fsGood
  split_ifs <;> simp

/-- Witness for C4 at `fsGood` (all files present and readable) with a
timed-out build. -/
theorem C4_witness :
    ∃ st : St, run_all_checks fsGood .timedOut =
      .ok (st.issues.length == 0, st, generate_report st) :=
  (C4_completes_when_readable fsGood .timedOut fsGood_readable).1

/-- C10: when `android/app/build.gradle` is absent, `check_android_config`
records only the `google-services.json` existence check — the two content
checks on `build.gradle` record nothing; likewise, when
`ios/Runner/Info.plist` is absent, `check_ios_config` records only the
`GoogleService-Info.plist` existence check; hence the total number of
checks a run performs varies with which of these files exist (1 vs 3
recorded checks for the android group on two concrete filesystems). -/
theorem C10_skipped_content_checks :
    (∀ (fs : FS) (st : St), fs "android/app/build.gradle" = .absent →
      check_android_config fs st =
        .ok (check_file_exists fs "android/app/google-services.json"
          "Google Services JSON" st).2) ∧
    (∀ (fs : FS) (st : St), fs "ios/Runner/Info.plist" = .absent →
      check_ios_config fs st =
        .ok (check_file_exists fs "ios/Runner/GoogleService-Info.plist"
          "GoogleService-Info.plist" st).2) ∧
    (stOfCheck (check_android_config (fun _ => .absent) initSt)).total_checks
      = 1 ∧
    (stOfCheck (check_android_config
      (fun p => if p = "android/app/build.gradle" then
        .file (some "com.google.gms.google-services firebase-bom")
      else .absent) initSt)).total_checks = 3 := by
  refine ⟨?_, ?_, by decide, by decide⟩
  · intro fs st hg
    unfold check_android_config
    rw [hg]
    rfl
  · intro fs st hg
    unfold check_ios_config
    rw [hg]
    rfl

/-- Witness for C10: on the all-absent filesystem the android group is
exactly the single `google-services.json` existence check. -/
theorem C10_witness :
    check_android_config (fun _ => FileState.absent) initSt =
      .ok (check_file_exists (fun _ => FileState.absent)
        "android/app/google-services.json" "Google Services JSON" initSt).2 :=
  C10_skipped_content_checks.1 (fun _ => FileState.absent) initSt rfl

theorem securityD_count_firestore (f2 : FileState) :
    (securityD .absent f2).dWarnings.count
      "Firestore security rules not found" = 1 := by
  unfold securityD
  by_cases h2 : f2.existsb = true <;>
    simp [show FileState.absent.existsb = false from rfl, h2,
      dWarnings_dcomp, List.count_append]

theorem securityD_count_storage (f1 : FileState) :
    (securityD f1 .absent).dWarnings.count
      "Storage security rules not found" = 1 := by
  unfold securityD
  by_cases h1 : f1.existsb = true <;>
    simp [show FileState.absent.existsb = false from rfl, h1,
      dWarnings_dcomp, List.count_append]

/-- C8: an absent optional file (`firestore.rules`, `storage.rules`,
`web/index.html`) yields exactly one Warning in the whole run and never
an Error — the security-rules group and the web group leave the issues
list untouched in every case. -/
theorem C8_optional_file_warning (fs : FS) (b : BuildResult)
    (h : Readable fs) :
    (fs "firestore.rules" = .absent →
      (warningsOf (run_all_checks fs b)).count
        "Firestore security rules not found" = 1) ∧
    (fs "storage.rules" = .absent →
      (warningsOf (run_all_checks fs b)).count
        "Storage security rules not found" = 1) ∧
    (fs "web/index.html" = .absent →
      (warningsOf (run_all_checks fs b)).count
        "Web index.html not found" = 1) ∧
    (∀ st, (check_security_rules fs st).issues = st.issues) ∧
    (∀ st st', check_web_config fs st = .ok st' →
      st'.issues = st.issues) := by
  obtain ⟨d, hd⟩ := runD_isOk fs b h
  obtain ⟨d1, d2, d3, d4, d5, h1, h2, h3, h4, h5, hdc⟩ := runD_ok_parts fs b d hd
  have hw := warningsOf_run fs b d hd
  rw [hw, hdc]
  simp only [dWarnings_dcomp, List.count_append]
  have z1 : ∀ x, x ∉ optionsWarningMsgs → d1.dWarnings.count x = 0 :=
    fun x hx => count_eq_zero_of_sub x (optionsD_sub _ _ h1).2 hx
  have z2 : ∀ x, x ∉ ["Firebase BoM dependency missing"] →
      d2.dWarnings.count x = 0 :=
    fun x hx => count_eq_zero_of_sub x (androidD_sub _ _ _ h2).2 hx
  have z3 : ∀ x, x ∉ ["URL schemes not configured"] →
      d3.dWarnings.count x = 0 :=
    fun x hx => count_eq_zero_of_sub x (iosD_sub _ _ _ h3).2 hx
  have z4 : ∀ x, x ∉ ["Web index.html not found",
      "Firebase scripts not found in index.html"] →
      d4.dWarnings.count x = 0 :=
    fun x hx => count_eq_zero_of_sub x (webD_sub _ _ h4).2 hx
  have z5 : ∀ x, x ∉ depsWarningMsgs → d5.dWarnings.count x = 0 :=
    fun x hx => count_eq_zero_of_sub x (depsD_sub _ _ h5).2 hx
  have z6 : ∀ x, x ∉ ["Firestore security rules not found",
      "Storage security rules not found"] →
      (securityD (fs "firestore.rules") (fs "storage.rules")).dWarnings.count
        x = 0 :=
    fun x hx => count_eq_zero_of_sub x (securityD_sub _ _).2 hx
  have z7 : ∀ x, x ∉ ["Build timed out (this is normal for first build)"] →
      (buildD b).dWarnings.count x = 0 :=
    fun x hx => count_eq_zero_of_sub x (buildD_warnings_sub b) hx
  refine ⟨?_, ?_, ?_, ?_, ?_⟩
  · intro habs
    rw [habs]
    have o6 := securityD_count_firestore (fs "storage.rules")
    have o1 := z1 "Firestore security rules not found" (by decide)
    have o2 := z2 "Firestore security rules not found" (by decide)
    have o3 := z3 "Firestore security rules not found" (by decide)
    have o4 := z4 "Firestore security rules not found" (by decide)
    have o5 := z5 "Firestore security rules not found" (by decide)
    have o7 := z7 "Firestore security rules not found" (by decide)
    omega
  · intro habs
    rw [habs]
    have o6 := securityD_count_storage (fs "firestore.rules")
    have o1 := z1 "Storage security rules not found" (by decide)
    have o2 := z2 "Storage security rules not found" (by decide)
    have o3 := z3 "Storage security rules not found" (by decide)
    have o4 := z4 "Storage security rules not found" (by decide)
    have o5 := z5 "Storage security rules not found" (by decide)
    have o7 := z7 "Storage security rules not found" (by decide)
    omega
  · intro habs
    rw [habs] at h4
    have h4' : d4 = ⟨[], ["Web index.html not found"], 0⟩ := by
      simp only [webD, Except.ok.injEq] at h4
      exact h4.symm
    subst h4'
    have o4 : (Delta.mk [] ["Web index.html not found"] 0).dWarnings.count
        "Web index.html not found" = 1 := by decide
    have o1 := z1 "Web index.html not found" (by decide)
    have o2 := z2 "Web index.html not found" (by decide)
    have o3 := z3 "Web index.html not found" (by decide)
    have o5 := z5 "Web index.html not found" (by decide)
    have o6 := z6 "Web index.html not found" (by decide)
    have o7 := z7 "Web index.html not found" (by decide)
    omega
  · intro st
    rw [check_security_rules_applyD]
    simp [applyD, (securityD_sub (fs "firestore.rules") (fs "storage.rules")).1]
  · intro st st' hst
    rw [check_web_config_applyD] at hst
    cases hweb : webD (fs "web/index.html") with
    | error e => rw [hweb] at hst; simp [Except.map] at hst
    | ok d4' =>
      rw [hweb] at hst
      simp only [Except.map, Except.ok.injEq] at hst
      rw [← hst]
      simp [applyD, (webD_sub _ _ hweb).1]

/-- Witness for C8 on the all-absent filesystem: the firestore-rules
warning appears exactly once. -/
theorem C8_witness :
    (warningsOf (run_all_checks (fun _ => FileState.absent)
      .flutterNotFound)).count "Firestore security rules not found" = 1 :=
  (C8_optional_file_warning (fun _ => FileState.absent) .flutterNotFound
    (fun _ => by simp)).1 rfl

/-- Counterexample to C7: on the all-absent filesystem with a timed-out
build, the timeout warning is the LAST recorded warning — the
security-rule checks run and record their results BEFORE the build
attempt (the build group is the final group), not after the timeout as
the claim states. -/
theorem C7_counterexample :
    warningsOf (run_all_checks (fun _ => FileState.absent) .timedOut) =
      ["Web index.html not found", "Firestore security rules not found",
       "Storage security rules not found",
       "Build timed out (this is normal for first build)"] ∧
    (warningsOf (run_all_checks (fun _ => FileState.absent)
      .timedOut)).getLast? =
      some "Build timed out (this is normal for first build)" :=
  ⟨by decide, by decide⟩

/-- C7 (amended): a timed-out build records exactly one Warning in the
whole run and aborts nothing — the run still completes and renders its
report; the security-rule checks execute and record their two results in
every run (they precede the build group, which is last); a
build-tool-not-found condition records the `Flutter not found in PATH`
Error instead. -/
theorem C7_timeout_single_warning (fs : FS) (h : Readable fs) :
    ((warningsOf (run_all_checks fs .timedOut)).count
      "Build timed out (this is normal for first build)" = 1) ∧
    (∃ st : St, run_all_checks fs .timedOut =
      .ok (st.issues.length == 0, st, generate_report st)) ∧
    (∀ st, (check_security_rules fs st).total_checks =
      st.total_checks + 2) ∧
    (fs "firestore.rules" = .absent →
      "Firestore security rules not found" ∈
        warningsOf (run_all_checks fs .timedOut)) ∧
    ("Flutter not found in PATH" ∈
      issuesOf (run_all_checks fs .flutterNotFound)) := by
  obtain ⟨d, hd⟩ := runD_isOk fs .timedOut h
  obtain ⟨d1, d2, d3, d4, d5, h1, h2, h3, h4, h5, hdc⟩ :=
    runD_ok_parts fs .timedOut d hd
  refine ⟨?_, ?_, ?_, ?_, ?_⟩
  · rw [warningsOf_run fs .timedOut d hd, hdc]
    simp only [dWarnings_dcomp, List.count_append]
    have o1 := count_eq_zero_of_sub
      "Build timed out (this is normal for first build)"
      (optionsD_sub _ _ h1).2 (by decide)
    have o2 := count_eq_zero_of_sub
      "Build timed out (this is normal for first build)"
      (androidD_sub _ _ _ h2).2 (by decide)
    have o3 := count_eq_zero_of_sub
      "Build timed out (this is normal for first build)"
      (iosD_sub _ _ _ h3).2 (by decide)
    have o4 := count_eq_zero_of_sub
      "Build timed out (this is normal for first build)"
      (webD_sub _ _ h4).2 (by decide)
    have o5 := count_eq_zero_of_sub
      "Build timed out (this is normal for first build)"
      (depsD_sub _ _ h5).2 (by decide)
    have o6 := count_eq_zero_of_sub
      "Build timed out (this is normal for first build)"
      (securityD_sub (fs "firestore.rules") (fs "storage.rules")).2
      (by decide)
    have o7 : (buildD .timedOut).dWarnings.count
        "Build timed out (this is normal for first build)" = 1 := by decide
    omega
  · exact ⟨applyD initSt d, by rw [run_all_checks_applyD, hd]; rfl⟩
  · intro st
    rw [check_security_rules_applyD]
    by_cases hf : (fs "firestore.rules").existsb = true <;>
      by_cases hs : (fs "storage.rules").existsb = true <;>
        simp [securityD, hf, hs, applyD, dcomp]
  · intro habs
    rw [warningsOf_run fs .timedOut d hd, hdc, habs]
    simp [dWarnings_dcomp, List.mem_append, securityD,
      show FileState.absent.existsb = false from rfl]
  · obtain ⟨e, he⟩ := runD_isOk fs .flutterNotFound h
    obtain ⟨e1, e2, e3, e4, e5, g1, g2, g3, g4, g5, gdc⟩ :=
      runD_ok_parts fs .flutterNotFound e he
    rw [issuesOf_run fs .flutterNotFound e he, gdc]
    simp [dIssues_dcomp, List.mem_append, buildD]

/-- Witness for C7 on the all-absent filesystem: the timeout warning is
recorded exactly once. -/
theorem C7_witness :
    (warningsOf (run_all_checks (fun _ => FileState.absent)
      .timedOut)).count "Build timed out (this is normal for first build)" = 1 :=
  (C7_timeout_single_warning (fun _ => FileState.absent)
    (fun _ => by simp)).1

theorem androidContentD_issues_sub (c : String) :
    (androidContentD c).dIssues ⊆ ["Google Services plugin not integrated"] := by
  simp only [androidContentD, dIssues_dcomp, List.append_subset]
  constructor <;> split <;> simp

theorem androidD_count_gs (gradle : FileState) (d : Delta)
    (h : androidD .absent gradle = .ok d) :
    d.dIssues.count
      "Google Services JSON: android/app/google-services.json - FILE MISSING"
      = 1 := by
  cases gradle with
  | absent =>
    simp only [androidD, Except.ok.injEq] at h
    rw [← h, fileCheckD_absent]
    decide
  | file o =>
    cases o with
    | none => simp [androidD] at h
    | some c =>
      simp only [androidD, Except.ok.injEq] at h
      rw [← h, count_dcomp_issues, fileCheckD_absent]
      have hz := count_eq_zero_of_sub
        "Google Services JSON: android/app/google-services.json - FILE MISSING"
        (androidContentD_issues_sub c) (by decide)
      rw [hz]
      decide

theorem iosD_count_plist (infoPlist : FileState) (d : Delta)
    (h : iosD .absent infoPlist = .ok d) :
    d.dIssues.count
      "GoogleService-Info.plist: ios/Runner/GoogleService-Info.plist - FILE MISSING"
      = 1 := by
  cases infoPlist with
  | absent =>
    simp only [iosD, Except.ok.injEq] at h
    rw [← h, fileCheckD_absent]
    decide
  | file o =>
    cases o with
    | none => simp [iosD] at h
    | some c =>
      simp only [iosD, Except.ok.injEq] at h
      rw [← h, count_dcomp_issues, fileCheckD_absent]
      have hz : (if containsSub "CFBundleURLTypes" c then
          (⟨[], [], 1⟩ : Delta) else
          ⟨[], ["URL schemes not configured"], 0⟩).dIssues.count
          "GoogleService-Info.plist: ios/Runner/GoogleService-Info.plist - FILE MISSING"
          = 0 := by
        split <;> decide
      rw [hz]
      decide

/-- Counterexample to C5: on the all-absent filesystem the single Error
recorded for the missing Firebase options file is the fixed message
`Firebase options file not found`, which does not reference the file's
path `lib/firebase_options.dart`. -/
theorem C5_counterexample :
    issuesOf (run_all_checks (fun _ => FileState.absent) .flutterNotFound) =
      ["Firebase options file not found",
       "Google Services JSON: android/app/google-services.json - FILE MISSING",
       "GoogleService-Info.plist: ios/Runner/GoogleService-Info.plist - FILE MISSING",
       "pubspec.yaml not found",
       "Flutter not found in PATH"] ∧
    containsSub "lib/firebase_options.dart"
      "Firebase options file not found" = false :=
  ⟨by decide, by decide⟩

/-- C5 (amended): an absent mandatory file yields exactly one Error in
the whole run; for `google-services.json` and `GoogleService-Info.plist`
that Error's message references both the description and the path; for
`pubspec.yaml` the message contains the path; for the Firebase options
file the message is the fixed `Firebase options file not found`, which
names the file but does not contain its path. -/
theorem C5_missing_mandatory_file_error (fs : FS) (b : BuildResult)
    (h : Readable fs) :
    (fs "lib/firebase_options.dart" = .absent →
      (issuesOf (run_all_checks fs b)).count
        "Firebase options file not found" = 1) ∧
    (fs "android/app/google-services.json" = .absent →
      (issuesOf (run_all_checks fs b)).count
        "Google Services JSON: android/app/google-services.json - FILE MISSING"
        = 1) ∧
    (fs "ios/Runner/GoogleService-Info.plist" = .absent →
      (issuesOf (run_all_checks fs b)).count
        "GoogleService-Info.plist: ios/Runner/GoogleService-Info.plist - FILE MISSING"
        = 1) ∧
    (fs "pubspec.yaml" = .absent →
      (issuesOf (run_all_checks fs b)).count "pubspec.yaml not found" = 1) ∧
    containsSub "Google Services JSON"
      "Google Services JSON: android/app/google-services.json - FILE MISSING"
      = true ∧
    containsSub "android/app/google-services.json"
      "Google Services JSON: android/app/google-services.json - FILE MISSING"
      = true ∧
    containsSub "GoogleService-Info.plist"
      "GoogleService-Info.plist: ios/Runner/GoogleService-Info.plist - FILE MISSING"
      = true ∧
    containsSub "ios/Runner/GoogleService-Info.plist"
      "GoogleService-Info.plist: ios/Runner/GoogleService-Info.plist - FILE MISSING"
      = true ∧
    containsSub "pubspec.yaml" "pubspec.yaml not found" = true ∧
    containsSub "lib/firebase_options.dart"
      "Firebase options file not found" = false := by
  obtain ⟨d, hd⟩ := runD_isOk fs b h
  obtain ⟨d1, d2, d3, d4, d5, h1, h2, h3, h4, h5, hdc⟩ := runD_ok_parts fs b d hd
  rw [issuesOf_run fs b d hd, hdc]
  simp only [dIssues_dcomp, List.count_append]
  have z4 : ∀ x : String, d4.dIssues.count x = 0 := by
    intro x
    rw [(webD_sub _ _ h4).1]
    rfl
  have z6 : ∀ x : String,
      (securityD (fs "firestore.rules") (fs "storage.rules")).dIssues.count
        x = 0 := by
    intro x
    rw [(securityD_sub _ _).1]
    rfl
  refine ⟨?_, ?_, ?_, ?_, by decide, by decide, by decide, by decide,
    by decide, by decide⟩
  · intro habs
    rw [habs] at h1
    have h1' : d1 = ⟨["Firebase options file not found"], [], 0⟩ := by
      simp only [optionsD, Except.ok.injEq] at h1
      exact h1.symm
    subst h1'
    have o1 : (Delta.mk ["Firebase options file not found"] [] 0).dIssues.count
        "Firebase options file not found" = 1 := by decide
    have o2 := count_eq_zero_of_sub "Firebase options file not found"
      (androidD_sub _ _ _ h2).1 (by decide)
    have o3 := count_eq_zero_of_sub "Firebase options file not found"
      (iosD_sub _ _ _ h3).1 (by decide)
    have o4 := z4 "Firebase options file not found"
    have o5 := count_eq_zero_of_sub "Firebase options file not found"
      (depsD_sub _ _ h5).1 (by decide)
    have o6 := z6 "Firebase options file not found"
    have o7 := count_buildD_issues_eq_zero b "Firebase options file not found"
      (by decide)
      (fun s => append_ne_of_head "Build failed: "
        "Firebase options file not found" 'B' 'F' _ _ rfl rfl (by decide) s)
      (fun s => append_ne_of_head "Build check failed: "
        "Firebase options file not found" 'B' 'F' _ _ rfl rfl (by decide) s)
    omega
  · intro habs
    rw [habs] at h2
    have o2 := androidD_count_gs _ _ h2
    have o1 := count_eq_zero_of_sub
      "Google Services JSON: android/app/google-services.json - FILE MISSING"
      (optionsD_sub _ _ h1).1 (by decide)
    have o3 := count_eq_zero_of_sub
      "Google Services JSON: android/app/google-services.json - FILE MISSING"
      (iosD_sub _ _ _ h3).1 (by decide)
    have o4 := z4
      "Google Services JSON: android/app/google-services.json - FILE MISSING"
    have o5 := count_eq_zero_of_sub
      "Google Services JSON: android/app/google-services.json - FILE MISSING"
      (depsD_sub _ _ h5).1 (by decide)
    have o6 := z6
      "Google Services JSON: android/app/google-services.json - FILE MISSING"
    have o7 := count_buildD_issues_eq_zero b
      "Google Services JSON: android/app/google-services.json - FILE MISSING"
      (by decide)
      (fun s => append_ne_of_head "Build failed: "
        "Google Services JSON: android/app/google-services.json - FILE MISSING"
        'B' 'G' _ _ rfl rfl (by decide) s)
      (fun s => append_ne_of_head "Build check failed: "
        "Google Services JSON: android/app/google-services.json - FILE MISSING"
        'B' 'G' _ _ rfl rfl (by decide) s)
    omega
  · intro habs
    rw [habs] at h3
    have o3 := iosD_count_plist _ _ h3
    have o1 := count_eq_zero_of_sub
      "GoogleService-Info.plist: ios/Runner/GoogleService-Info.plist - FILE MISSING"
      (optionsD_sub _ _ h1).1 (by decide)
    have o2 := count_eq_zero_of_sub
      "GoogleService-Info.plist: ios/Runner/GoogleService-Info.plist - FILE MISSING"
      (androidD_sub _ _ _ h2).1 (by decide)
    have o4 := z4
      "GoogleService-Info.plist: ios/Runner/GoogleService-Info.plist - FILE MISSING"
    have o5 := count_eq_zero_of_sub
      "GoogleService-Info.plist: ios/Runner/GoogleService-Info.plist - FILE MISSING"
      (depsD_sub _ _ h5).1 (by decide)
    have o6 := z6
      "GoogleService-Info.plist: ios/Runner/GoogleService-Info.plist - FILE MISSING"
    have o7 := count_buildD_issues_eq_zero b
      "GoogleService-Info.plist: ios/Runner/GoogleService-Info.plist - FILE MISSING"
      (by decide)
      (fun s => append_ne_of_head "Build failed: "
        "GoogleService-Info.plist: ios/Runner/GoogleService-Info.plist - FILE MISSING"
        'B' 'G' _ _ rfl rfl (by decide) s)
      (fun s => append_ne_of_head "Build check failed: "
        "GoogleService-Info.plist: ios/Runner/GoogleService-Info.plist - FILE MISSING"
        'B' 'G' _ _ rfl rfl (by decide) s)
    omega
  · intro habs
    rw [habs] at h5
    have h5' : d5 = ⟨["pubspec.yaml not found"], [], 0⟩ := by
      simp only [depsD, Except.ok.injEq] at h5
      exact h5.symm
    subst h5'
    have o5 : (Delta.mk ["pubspec.yaml not found"] [] 0).dIssues.count
        "pubspec.yaml not found" = 1 := by decide
    have o1 := count_eq_zero_of_sub "pubspec.yaml not found"
      (optionsD_sub _ _ h1).1 (by decide)
    have o2 := count_eq_zero_of_sub "pubspec.yaml not found"
      (androidD_sub _ _ _ h2).1 (by decide)
    have o3 := count_eq_zero_of_sub "pubspec.yaml not found"
      (iosD_sub _ _ _ h3).1 (by decide)
    have o4 := z4 "pubspec.yaml not found"
    have o6 := z6 "pubspec.yaml not found"
    have o7 := count_buildD_issues_eq_zero b "pubspec.yaml not found"
      (by decide)
      (fun s => append_ne_of_head "Build failed: " "pubspec.yaml not found"
        'B' 'p' _ _ rfl rfl (by decide) s)
      (fun s => append_ne_of_head "Build check failed: "
        "pubspec.yaml not found" 'B' 'p' _ _ rfl rfl (by decide) s)
    omega

/-- Witness for C5 on the all-absent filesystem: the missing
`google-services.json` yields its Error exactly once. -/
theorem C5_witness :
    (issuesOf (run_all_checks (fun _ => FileState.absent)
      .flutterNotFound)).count
      "Google Services JSON: android/app/google-services.json - FILE MISSING"
      = 1 :=
  ((C5_missing_mandatory_file_error (fun _ => FileState.absent)
    .flutterNotFound (fun _ => by simp)).2.1) rfl

theorem total_applyD (st : St) (d : Delta) :
    (applyD st d).total_checks = st.total_checks + dTotal d := by
  simp only [applyD, dTotal]
  omega

theorem dTotal_dcomp (d e : Delta) :
    dTotal (dcomp d e) = dTotal d + dTotal e := by
  simp only [dTotal, dcomp, List.length_append]
  omega

theorem dTotal_dlist_filter {α : Type} (pred : α → Bool) (f : α → Delta)
    (l : List α) (h : ∀ a ∈ l, dTotal (f a) = if pred a then 1 else 0) :
    dTotal (dlist f l) = (l.filter pred).length := by
  induction l with
  | nil => rfl
  | cons a l ih =>
    simp only [dlist, dTotal_dcomp, List.filter_cons]
    rw [h a (List.mem_cons_self a l),
      ih (fun x hx => h x (List.mem_cons_of_mem _ hx))]
    by_cases hp : pred a = true
    · simp only [hp, if_true, List.length_cons]
      omega
    · simp [hp]

theorem dTotal_dlist_const {α : Type} (f : α → Delta) (l : List α)
    (h : ∀ a ∈ l, dTotal (f a) = 1) : dTotal (dlist f l) = l.length := by
  induction l with
  | nil => rfl
  | cons a l ih =>
    simp only [dlist, dTotal_dcomp, List.length_cons]
    rw [h a (List.mem_cons_self a l),
      ih (fun x hx => h x (List.mem_cons_of_mem _ hx))]
    omega

theorem dTotal_phD (c : String) (p : String × String) :
    dTotal (phD c p) = if containsSub p.2 c then 1 else 0 := by
  unfold phD
  split <;> rfl

theorem dTotal_realIdD (c : String) : dTotal (realIdD c) = 1 := by
  unfold realIdD
  split <;> rfl

theorem dTotal_platD (c platform : String) :
    dTotal (platD c platform) = 1 := by
  unfold platD
  split <;> rfl

/-- When the options file exists and is readable, its check group
records one check per matching placeholder pattern, one for the real
project id, and one per platform stanza — and nothing for the file's
existence itself. -/
theorem optionsD_total (c : String) (d : Delta)
    (h : optionsD (.file (some c)) = .ok d) :
    dTotal d =
      (placeholder_patterns.filter (fun q => containsSub q.2 c)).length +
        1 + platforms.length := by
  simp only [optionsD, Except.ok.injEq] at h
  rw [← h, dTotal_dcomp, dTotal_dcomp]
  rw [dTotal_dlist_filter (fun q => containsSub q.2 c) (phD c) _
    (fun q _ => dTotal_phD c q)]
  rw [dTotal_realIdD, dTotal_dlist_const (platD c) _
    (fun platform _ => dTotal_platD c platform)]

theorem mem_dlist_issues_of {α : Type} (f : α → Delta) (l : List α) (a : α)
    (ha : a ∈ l) (x : String) (hx : x ∈ (f a).dIssues) :
    x ∈ (dlist f l).dIssues := by
  induction l with
  | nil => cases ha
  | cons b l ih =>
    simp only [dlist, dIssues_dcomp, List.mem_append]
    rcases List.mem_cons.mp ha with h | h
    · subst h
      exact Or.inl hx
    · exact Or.inr (ih h)

/-- Counterexample to C6: when the options file exists and contains the
placeholder `your-api-key`, the check group records the placeholder
Error — but no Success is recorded for the file's existence
(`success_count` stays 0), so the existence outcome is NOT recorded in
the aggregator. -/
theorem C6_counterexample :
    ((fun p => if p = "lib/firebase_options.dart" then
        FileState.file (some "your-api-key") else FileState.absent)
      "lib/firebase_options.dart").existsb = true ∧
    stOfCheck (check_firebase_options
      (fun p => if p = "lib/firebase_options.dart" then
        FileState.file (some "your-api-key") else FileState.absent) initSt) =
      ⟨["Found placeholder pattern: your-api-key",
        "Real Firebase project ID not found"],
       ["Android configuration missing", "Ios configuration missing",
        "Web configuration missing", "Macos configuration missing",
        "Windows configuration missing"], 0, 7⟩ :=
  ⟨by decide, by decide⟩

/-- C6 (amended): if the options file exists (readably) and its content
matches a known placeholder pattern, the run records an Error for that
pattern even though the file exists; the group's recorded checks are
exactly the content checks (matching placeholders, real project id,
platform stanzas) — the file's existence itself is not recorded in the
aggregator. -/
theorem C6_placeholder_error_recorded (fs : FS) (b : BuildResult)
    (c : String) (p : String × String) (h : Readable fs)
    (hf : fs "lib/firebase_options.dart" = .file (some c))
    (hp : p ∈ placeholder_patterns) (hm : containsSub p.2 c = true) :
    ("Found placeholder pattern: " ++ p.1) ∈
      issuesOf (run_all_checks fs b) ∧
    (∀ st st', check_firebase_options fs st = .ok st' →
      st'.total_checks = st.total_checks +
        (placeholder_patterns.filter (fun q => containsSub q.2 c)).length +
        1 + platforms.length) := by
  constructor
  · obtain ⟨d, hd⟩ := runD_isOk fs b h
    obtain ⟨d1, d2, d3, d4, d5, h1, h2, h3, h4, h5, hdc⟩ :=
      runD_ok_parts fs b d hd
    rw [issuesOf_run fs b d hd, hdc]
    simp only [dIssues_dcomp, List.mem_append]
    refine Or.inl ?_
    rw [hf] at h1
    simp only [optionsD, Except.ok.injEq] at h1
    rw [← h1]
    simp only [dIssues_dcomp, List.mem_append]
    refine Or.inl (Or.inl ?_)
    exact mem_dlist_issues_of (phD c) placeholder_patterns p hp _
      (by simp [phD, hm])
  · intro st st' hst
    rw [check_firebase_options_applyD, hf] at hst
    have hopt : optionsD (.file (some c)) =
        .ok (dcomp (dcomp (dlist (phD c) placeholder_patterns)
          (realIdD c)) (dlist (platD c) platforms)) := rfl
    rw [hopt] at hst
    simp only [Except.map, Except.ok.injEq] at hst
    rw [← hst, total_applyD, optionsD_total c _ hopt]
    omega

/-- Witness for C6 at a concrete filesystem whose options file contains
`your-api-key`. -/
theorem C6_witness :
    ("Found placeholder pattern: " ++ "your-api-key") ∈
      issuesOf (run_all_checks
        (fun p => if p = "lib/firebase_options.dart" then
          FileState.file (some "your-api-key") else FileState.absent)
        .flutterNotFound) :=
  (C6_placeholder_error_recorded
    (fun p => if p = "lib/firebase_options.dart" then
      FileState.file (some "your-api-key") else FileState.absent)
    .flutterNotFound "your-api-key" ("your-api-key", "your-api-key")
    (fun q => by by_cases hq : q = "lib/firebase_options.dart" <;> simp [hq])
    (by simp) (by decide) (by decide)).1

end Verify
